import Mathlib

/-!
Verification of the poem-composition core of the `poet` repository.

The embedded code is the guidance-aware `PoetAgent` (src/unnamed/part_005,
second document: `extractLineCount`, `run`, `generateTitle`, `generateSeedLine`,
`generateNextLine`, `checkIfComplete`) together with the `Poem` model
(src/src/models/poem.ts).  The asynchronous LLM collaborator
(`LlmService.generate`) is modelled as a stream `gen : Nat -> String` giving
the response to the k-th generation call of a run; the run records a
transcript of every call (its kind, the exact prompt text, and the number of
poem lines at call time).
-/

namespace Poet

/-- `Poem` from src/src/models/poem.ts: a title and an ordered list of lines. -/
structure Poem where
  title : String
  lines : List String
deriving Repr, DecidableEq

/-- `Poem.addLine`: `this.lines.push(line)`. -/
def Poem.addLine (p : Poem) (line : String) : Poem :=
  { p with lines := p.lines ++ [line] }

/-- JavaScript truthiness of an optional string field: `undefined` and the
empty string are falsy, every other string is truthy. -/
def jsTruthy (s : Option String) : Bool :=
  match s with
  | none => false
  | some t => !t.isEmpty

/-- `title.trim().replace(/"/g, '')` (the quote-stripping part). -/
def stripQuotes (s : String) : String :=
  ⟨s.data.filter (fun c => c ≠ '"')⟩

/-- JS `String.prototype.trim`: strip whitespace from both ends. -/
def trimStr (s : String) : String :=
  ⟨((s.data.dropWhile Char.isWhitespace).reverse.dropWhile Char.isWhitespace).reverse⟩

/-- JS `String.prototype.toLowerCase`, per character (ASCII folding, which
is all the agent's comparisons against `'random'`, the style names and
`'yes'` require). -/
def lowerStr (s : String) : String :=
  ⟨s.data.map Char.toLower⟩

/-! ### GuidanceLineCountExtractor

`PoetAgent.extractLineCount` runs the regular expression
`/(\d+)\s*lines?\s*(long|in length|total)?/i` on the guidance text and
parses the first match's leading digit group.  Because both trailing parts
(`s?` after `line`, and the `(long|in length|total)?` group) are optional
and everything after the digit group is committed (backtracking into the
digit or whitespace runs can never make the literal `line` match), the
regex succeeds at a position iff that position starts a digit run which,
after skipping whitespace, is followed by `line` case-insensitively; the
leftmost such position wins. -/

/-- Decimal value of a digit run, as `parseInt(match[1], 10)` computes it. -/
def digitsVal (ds : List Char) : Nat :=
  ds.foldl (fun n c => 10 * n + (c.toNat - 48)) 0

/-- Case-insensitive "the needle starts the haystack" (ASCII folding, which
is all the pattern `line` needs). -/
def ciStarts : List Char → List Char → Bool
  | [], _ => true
  | _ :: _, [] => false
  | a :: as, b :: bs => (a == b.toLower) && ciStarts as bs

/-- One attempt of `/(\d+)\s*lines?.../i` anchored at the head of `cs`. -/
def matchAt (cs : List Char) : Option Nat :=
  let ds := cs.takeWhile Char.isDigit
  if ds.isEmpty then none
  else
    let rest := (cs.drop ds.length).dropWhile Char.isWhitespace
    if ciStarts ['l', 'i', 'n', 'e'] rest then some (digitsVal ds) else none

/-- Leftmost match of the line-count pattern, as `String.prototype.match`
finds it. -/
def firstLineMatch : List Char → Option Nat
  | [] => none
  | c :: cs =>
    match matchAt (c :: cs) with
    | some n => some n
    | none => firstLineMatch cs

/-- `PoetAgent.extractLineCount`: `!guidance` short-circuit, first regex
match, `count > 0 ? count : null`. -/
def extractLineCount (guidance : Option String) : Option Nat :=
  match guidance with
  | none => none
  | some g =>
    if g.isEmpty then none
    else
      match firstLineMatch g.data with
      | none => none
      | some n => if 0 < n then some n else none

/-! ### Style resolution

All three style-sensitive sites of `PoetAgent` branch the same way:
`style?.toLowerCase()` must be truthy and differ from `'random'`, and is
then compared against `'haiku' / 'limerick' / 'sonnet'`. -/

/-- The gate `lowerCaseStyle && lowerCaseStyle !== 'random'`. -/
def styleGateOpen (style : Option String) : Bool :=
  jsTruthy style && (lowerStr (style.getD "") != "random")

inductive StyleKind
  | haiku
  | limerick
  | sonnet
  | custom
  | free
deriving DecidableEq, Repr, BEq

/-- The style branching shared by `run`, `generateNextLine` and
`checkIfComplete`: gate first, then the three recognized names; a gated
but unrecognized name reaches no structural branch (`custom`), a falsy or
`'random'` style skips the whole block (`free`). -/
def styleKind (style : Option String) : StyleKind :=
  if styleGateOpen style then
    let ls := lowerStr (style.getD "")
    if ls = "haiku" then .haiku
    else if ls = "limerick" then .limerick
    else if ls = "sonnet" then .sonnet
    else .custom
  else .free

/-- The `maxLines` computation at the top of `PoetAgent.run`: default 12,
overridden by a guidance line count, else by the style's fixed count. -/
def resolveMaxLines (style guidance : Option String) : Nat :=
  match extractLineCount guidance with
  | some n => n
  | none =>
    match styleKind style with
    | .haiku => 3
    | .limerick => 5
    | .sonnet => 14
    | _ => 12

/-! ### PromptDirectiveComposer -/

/-- `theme && theme.toLowerCase() !== 'random'`. -/
def themeActive (theme : Option String) : Bool :=
  jsTruthy theme && (lowerStr (theme.getD "") != "random")

/-- Prompt of `generateTitle(theme)`. -/
def titlePrompt (theme userBio guidance : Option String) : String :=
  let p := "Generate a short, evocative, and highly original title for a new poem. The title should be two to five words. Be creative and unexpected—avoid clichés and common phrases. Use unusual word combinations, surprising imagery, or abstract concepts. Make it memorable and distinct."
  let p := if jsTruthy userBio then
      p ++ " The poem is written by someone with the following perspective: " ++ userBio.getD "" ++ "."
    else p
  let p := if themeActive theme then
      p ++ " The theme of the poem is \"" ++ theme.getD "" ++ "\"."
    else p
  let p := if jsTruthy guidance then
      p ++ " IMPORTANT: Follow this guidance carefully - " ++ guidance.getD ""
    else p
  p ++ " Respond with only the title itself, without any extra text or quotation marks."

/-- Prompt of `generateSeedLine()`. -/
def seedPrompt (userBio guidance : Option String) : String :=
  let p := "\n      Provide a single, famous, and thought-provoking quote from a well-known public figure \n      (e.g., a poet, scientist, politician, artist, or a line from a movie).\n"
  let p := if jsTruthy userBio then
      p ++ " The quote should resonate with someone who is: " ++ userBio.getD "" ++ "."
    else p
  let p := if jsTruthy guidance then
      p ++ " IMPORTANT: Consider this guidance when selecting the quote - " ++ guidance.getD "" ++ "."
    else p
  p ++ "\n      Respond with only the quote itself, without any extra text or quotation marks.\n    "

/-- `poem.lines.join('\n')`. -/
def joinLines (ls : List String) : String :=
  String.intercalate "\n" ls

/-- Everything `generateNextLine` appends before the style block: poem so
far, persona, task, theme, guidance. -/
def nextLinePromptHead (poem : Poem) (theme userBio guidance : Option String) : String :=
  let p := "\n      You are a poet creating a new poem. Here is the poem so far:\n      ---\n      Title: " ++ poem.title ++ "\n      " ++ joinLines poem.lines ++ "\n      ---\n"
  let p := if jsTruthy userBio then
      p ++ "\n      The poet's perspective: " ++ userBio.getD "" ++ "."
    else p
  let p := p ++ "\n      Your task is to add the next single line to continue the poem.\n      The line should be creative and fit the existing theme and rhythm.\n      The poem should have a clear narrative arc.\n    "
  let p := if themeActive theme then
      p ++ "\nThe poem's theme must be: " ++ theme.getD "" ++ "."
    else p
  if jsTruthy guidance then
    p ++ "\n\n*** CRITICAL GUIDANCE - FOLLOW THIS CAREFULLY ***\n" ++ guidance.getD "" ++ "\n*** END OF GUIDANCE ***\n\n"
  else p

def sevenSyl : String := " This next line should have 7 syllables."

def fiveSyl : String := " This next line should have 5 syllables and conclude the haiku."

def limFirst : String := " This line should rhyme with the first line and follow an anapestic rhythm (da-da-DUM)."

def limThird : String := " This line should rhyme with the third line and follow an anapestic rhythm (da-da-DUM)."

def aabbaNote : String := " The rhyme scheme is AABBA."

def sonnetIntro : String := " This is a Shakespearean sonnet. The poem will have 14 lines with an ABAB CDCD EFEF GG rhyme scheme."

def quatrainFirst : String := " This line should rhyme with the first line of its quatrain."

def quatrainSecond : String := " This line should rhyme with the second line of its quatrain."

def coupletNote : String := " This line should rhyme with the previous line to form a rhyming couplet."

/-- `\nThe poem must be in the style of a ${style}. ...` (original casing). -/
def styleIntro (style : Option String) : String :=
  "\nThe poem must be in the style of a " ++ style.getD "" ++ ". Adhere strictly to its structure, rhythm, and rhyme scheme."

/-- Haiku branch of `generateNextLine`, keyed on `poem.lines.length`. -/
def haikuAdd (len : Nat) : String :=
  if len = 1 then sevenSyl
  else if len = 2 then fiveSyl
  else ""

/-- Limerick branch of `generateNextLine`, keyed on `poem.lines.length`;
the AABBA note is appended outside the positional if-chain. -/
def limerickAdd (len : Nat) : String :=
  (if len = 1 ∨ len = 2 ∨ len = 5 then limFirst
   else if len = 3 ∨ len = 4 then limThird
   else "") ++ aabbaNote

/-- Sonnet branch of `generateNextLine`, keyed on `poem.lines.length`. -/
def sonnetAdd (len : Nat) : String :=
  sonnetIntro ++
    (if len = 1 ∨ len = 3 then quatrainFirst
     else if len = 2 ∨ len = 4 then quatrainSecond
     else if len = 5 ∨ len = 7 then quatrainFirst
     else if len = 6 ∨ len = 8 then quatrainSecond
     else if len = 9 ∨ len = 11 then quatrainFirst
     else if len = 10 ∨ len = 12 then quatrainSecond
     else if len = 13 ∨ len = 14 then coupletNote
     else "")

/-- The whole style block of `generateNextLine` (empty when the style gate
is closed). -/
def nextLineStyleBlock (style : Option String) (len : Nat) : String :=
  match styleKind style with
  | .free => ""
  | .haiku => styleIntro style ++ haikuAdd len
  | .limerick => styleIntro style ++ limerickAdd len
  | .sonnet => styleIntro style ++ sonnetAdd len
  | .custom => styleIntro style

def nextLineTail : String :=
  "\nRespond with only the single new line, without any extra text or quotation marks."

/-- The full prompt of `generateNextLine(poem, theme, style)`. -/
def nextLinePrompt (poem : Poem) (theme style userBio guidance : Option String) : String :=
  nextLinePromptHead poem theme userBio guidance
    ++ nextLineStyleBlock style poem.lines.length
    ++ nextLineTail

/-- Head of the `checkIfComplete` prompt. -/
def checkPromptHead (poem : Poem) : String :=
  "\n      Here is a poem:\n      ---\n      Title: " ++ poem.title ++ "\n      " ++ joinLines poem.lines ++ "\n      ---\n      The poem currently has " ++ toString poem.lines.length ++ " lines.\n      \n"

/-- Body of the `checkIfComplete` prompt.  The guidance branch with
`lines.length < guidanceLineCount` returns `false` before any generation
call, so only the reached-target text can ever be sent. -/
def checkPromptBody (poem : Poem) (guidance : Option String) : String :=
  match extractLineCount guidance with
  | some n =>
    "*** CRITICAL REQUIREMENT: The guidance specified that the poem MUST be " ++ toString n ++ " lines long. The poem now has " ++ toString poem.lines.length ++ " lines, which meets this requirement. ***\n\n" ++ "Considering its narrative arc and thematic development, does this poem feel complete and finished now that it has reached the required length of " ++ toString n ++ " lines?\n"
  | none =>
    "Considering its narrative arc and thematic development, does this poem feel complete and finished?\n      The poem should not end abruptly. It should feel resolved.\n    "

/-- The `this.guidance && !guidanceLineCount` note of `checkIfComplete`. -/
def checkPromptGuidanceNote (guidance : Option String) : String :=
  if jsTruthy guidance && (extractLineCount guidance).isNone then
    "\n\n*** IMPORTANT GUIDANCE TO CONSIDER: " ++ guidance.getD "" ++ " ***\n" ++ "When determining if the poem is complete, you MUST consider whether it satisfies the guidance above.\n"
  else ""

def checkTail : String :=
  "\nAnswer with only the word \"yes\" or \"no\".\n    "

/-- The full prompt of `checkIfComplete(poem, style)` (only sent when
neither the guidance safety check nor the fixed-count rule short-circuits). -/
def checkPrompt (poem : Poem) (guidance : Option String) : String :=
  checkPromptHead poem ++ checkPromptBody poem guidance
    ++ checkPromptGuidanceNote guidance ++ checkTail

/-! ### The generation loop -/

inductive ReqKind
  | title
  | seed
  | nextLine
  | judge
deriving DecidableEq, Repr, BEq

/-- One generation call of a run: its kind, the exact prompt sent, and
`poem.lines.length` at call time (0 for title/seed calls, which precede
the poem). -/
structure CallRec where
  kind : ReqKind
  prompt : String
  linesAt : Nat
deriving Repr, DecidableEq

/-- `String.prototype.includes`. -/
def leadsWith : List Char → List Char → Bool
  | [], _ => true
  | _ :: _, [] => false
  | a :: as, b :: bs => (a == b) && leadsWith as bs

def strIncludes (hay needle : String) : Bool :=
  hay.data.tails.any (fun t => leadsWith needle.data t)

/-- `response.trim().toLowerCase().includes('yes')`. -/
def saysYes (resp : String) : Bool :=
  strIncludes (lowerStr (trimStr resp)) "yes"

/-- The guidance safety check at the top of `checkIfComplete`. -/
def belowGuidanceTarget (poem : Poem) (guidance : Option String) : Bool :=
  match extractLineCount guidance with
  | some n => poem.lines.length < n
  | none => false

/-- The fixed-count completion rule of `checkIfComplete`. -/
def styleFixedDone (style : Option String) (len : Nat) : Bool :=
  match styleKind style with
  | .haiku => 3 ≤ len
  | .limerick => 5 ≤ len
  | .sonnet => 14 ≤ len
  | _ => false

/-- `PoetAgent.checkIfComplete`, with the generation capability as a
response stream and the call transcript threaded through. -/
def checkIfComplete (gen : Nat → String) (poem : Poem) (style guidance : Option String)
    (log : List CallRec) : Bool × List CallRec :=
  if belowGuidanceTarget poem guidance then (false, log)
  else if styleFixedDone style poem.lines.length then (true, log)
  else
    let prompt := checkPrompt poem guidance
    let resp := gen log.length
    (saysYes resp, log ++ [⟨.judge, prompt, poem.lines.length⟩])

/-- The `while (!isComplete && poem.lines.length < maxLines)` loop of
`PoetAgent.run`.  Each iteration appends one generated line and then
evaluates the completion policy; `fuel` bounds the recursion and is
instantiated with `maxLines` (sufficient, since every iteration both
requires `lines.length < maxLines` and grows `lines` by one). -/
def runLoop (gen : Nat → String) (theme style userBio guidance : Option String)
    (maxLines : Nat) : Nat → Poem → List CallRec → Poem × List CallRec
  | 0, poem, log => (poem, log)
  | fuel + 1, poem, log =>
    if poem.lines.length < maxLines then
      let prompt := nextLinePrompt poem theme style userBio guidance
      let resp := trimStr (gen log.length)
      let poem' := poem.addLine resp
      let log' := log ++ [⟨.nextLine, prompt, poem.lines.length⟩]
      let doCheck : Bool :=
        match extractLineCount guidance with
        | some n => decide (n ≤ poem'.lines.length)
        | none => decide (3 ≤ poem'.lines.length) || decide (maxLines ≤ poem'.lines.length)
      if doCheck then
        let res := checkIfComplete gen poem' style guidance log'
        if res.1 then (poem', res.2)
        else runLoop gen theme style userBio guidance maxLines fuel poem' res.2
      else runLoop gen theme style userBio guidance maxLines fuel poem' log'
    else (poem, log)

/-- `RunOptions` of the guidance-aware `PoetAgent.run`. -/
structure RunOptions where
  title : Option String := none
  seedLine : Option String := none
  theme : Option String := none
  style : Option String := none
  userBio : Option String := none
  guidance : Option String := none

structure RunResult where
  poem : Poem
  log : List CallRec

/-- `PoetAgent.run(options)`: resolve title and seed line (generating each
when the supplied value is falsy), create the poem, resolve `maxLines`,
then drive the generation loop. -/
def runPoet (gen : Nat → String) (opts : RunOptions) : RunResult :=
  let tlog : String × List CallRec :=
    if jsTruthy opts.title then (opts.title.getD "", [])
    else
      let p := titlePrompt opts.theme opts.userBio opts.guidance
      (stripQuotes (trimStr (gen 0)), [⟨.title, p, 0⟩])
  let slog : String × List CallRec :=
    if jsTruthy opts.seedLine then (opts.seedLine.getD "", tlog.2)
    else
      let p := seedPrompt opts.userBio opts.guidance
      ((trimStr (gen tlog.2.length)), tlog.2 ++ [⟨.seed, p, 0⟩])
  let poem : Poem := ⟨tlog.1, [slog.1]⟩
  let maxLines := resolveMaxLines opts.style opts.guidance
  let r := runLoop gen opts.theme opts.style opts.userBio opts.guidance maxLines maxLines poem slog.2
  ⟨r.1, r.2⟩

/-- Kind-count over a transcript. -/
def countKind (log : List CallRec) (k : ReqKind) : Nat :=
  (log.map CallRec.kind).count k

/-! ### Basic facts about the extractor and the resolved target -/

theorem extractLineCount_pos (g : Option String) (n : Nat)
    (h : extractLineCount g = some n) : 0 < n := by
  match g with
  | none => simp [extractLineCount] at h
  | some s =>
    by_cases he : s.isEmpty
    · simp [extractLineCount, he] at h
    · cases hm : firstLineMatch s.data with
      | none => simp [extractLineCount, he, hm] at h
      | some m =>
        by_cases hp : 0 < m
        · have hmn : m = n := by simpa [extractLineCount, he, hm, hp] using h
          omega
        · simp [extractLineCount, he, hm, hp] at h

theorem resolveMaxLines_pos (style guidance : Option String) :
    1 ≤ resolveMaxLines style guidance := by
  unfold resolveMaxLines
  cases hg : extractLineCount guidance with
  | some n => exact extractLineCount_pos guidance n hg
  | none => cases styleKind style <;> simp

/-- The target-resolution rule exactly as the spec states it: a
guidance-derived count wins; otherwise the style name (case-insensitively)
selects the fixed count Haiku=3, Limerick=5, Sonnet=14; anything else
(including an absent style, "random", or an unrecognized name) defaults
to 12. -/
def specResolveTarget (style guidance : Option String) : Nat :=
  match extractLineCount guidance with
  | some n => n
  | none =>
    match style with
    | some s =>
      if lowerStr s = "haiku" then 3
      else if lowerStr s = "limerick" then 5
      else if lowerStr s = "sonnet" then 14
      else 12
    | none => 12

theorem styleKind_of_lower (s : String) :
    styleKind (some s) =
      if s.isEmpty ∨ lowerStr s = "random" then .free
      else if lowerStr s = "haiku" then .haiku
      else if lowerStr s = "limerick" then .limerick
      else if lowerStr s = "sonnet" then .sonnet
      else .custom := by
  unfold styleKind styleGateOpen jsTruthy
  by_cases he : s.isEmpty
  · simp [he]
  · by_cases hr : lowerStr s = "random"
    · simp [he, hr]
    · simp [he, hr]

/-- C2: the line-count ceiling is resolved with precedence
guidance > style fixed count (case-insensitive Haiku=3, Limerick=5,
Sonnet=14) > default 12; in particular a guidance target beats a
structured style.  The code's resolver (which additionally routes
"random" and unrecognized names through its style gate) agrees with the
spec's precedence table on every input. -/
theorem C2_target_precedence (style guidance : Option String) :
    resolveMaxLines style guidance = specResolveTarget style guidance := by
  unfold resolveMaxLines specResolveTarget
  cases hg : extractLineCount guidance with
  | some n => rfl
  | none =>
    cases style with
    | none => rfl
    | some s =>
      rw [styleKind_of_lower s]
      by_cases he : s.isEmpty
      · have hs : s = "" := (String.isEmpty_iff s).mp he
        subst hs
        decide
      · by_cases hr : lowerStr s = "random"
        · simp [he, hr]
        · simp only [he, hr, or_self, if_false, false_or, Bool.false_eq_true]
          split_ifs <;> rfl

/-- C3: `extractLineCount` takes the first case-insensitive match of the
"<number> line(s) [long|in length|total]" pattern and rejects non-positive
numbers: any returned count is positive, and the spec's concrete examples
(including an upper-case variant showing case-insensitivity) evaluate as
stated. -/
theorem C3_extractor (g : String) (n : Nat) :
    (extractLineCount (some g) = some n → 0 < n) ∧
    extractLineCount (some "make it 24 lines long") = some 24 ∧
    extractLineCount (some "write a nice poem") = none ∧
    extractLineCount (some "0 lines long") = none ∧
    extractLineCount (some "MAKE IT 24 LINES LONG") = some 24 :=
  ⟨extractLineCount_pos (some g) n, by decide, by decide, by decide, by decide⟩

/-- Witness for C3 at a concrete guidance text. -/
theorem C3_extractor_witness :
    extractLineCount (some "7 lines total") = some 7 ∧ 0 < 7 :=
  ⟨by decide, (C3_extractor "7 lines total" 7).1 (by decide)⟩

/-! ### Structural lemmas about the loop -/

theorem runLoop_stop (gen : Nat → String) (theme style userBio guidance : Option String)
    (maxLines fuel : Nat) (poem : Poem) (log : List CallRec)
    (h : ¬ poem.lines.length < maxLines) :
    runLoop gen theme style userBio guidance maxLines fuel poem log = (poem, log) := by
  cases fuel with
  | zero => rfl
  | succ fuel => simp [runLoop, h]

theorem checkIfComplete_log (gen : Nat → String) (poem : Poem)
    (style guidance : Option String) (log : List CallRec) :
    (checkIfComplete gen poem style guidance log).2 = log ∨
    (checkIfComplete gen poem style guidance log).2
      = log ++ [⟨.judge, checkPrompt poem guidance, poem.lines.length⟩] := by
  unfold checkIfComplete
  split_ifs <;> simp

theorem runLoop_succ_lt (gen : Nat → String) (theme style userBio guidance : Option String)
    (maxLines fuel : Nat) (poem : Poem) (log : List CallRec)
    (h : poem.lines.length < maxLines) :
    runLoop gen theme style userBio guidance maxLines (fuel + 1) poem log =
      (let resp := trimStr (gen log.length)
       let poem' := poem.addLine resp
       let log' := log ++
         [⟨.nextLine, nextLinePrompt poem theme style userBio guidance, poem.lines.length⟩]
       let doCheck : Bool :=
         match extractLineCount guidance with
         | some n => decide (n ≤ poem'.lines.length)
         | none => decide (3 ≤ poem'.lines.length) || decide (maxLines ≤ poem'.lines.length)
       if doCheck then
         let res := checkIfComplete gen poem' style guidance log'
         if res.1 then (poem', res.2)
         else runLoop gen theme style userBio guidance maxLines fuel poem' res.2
       else runLoop gen theme style userBio guidance maxLines fuel poem' log') := by
  simp only [runLoop, h, if_true]

theorem addLine_lines (p : Poem) (s : String) : (p.addLine s).lines = p.lines ++ [s] := rfl

theorem addLine_title (p : Poem) (s : String) : (p.addLine s).title = p.title := rfl

theorem addLine_length (p : Poem) (s : String) :
    (p.addLine s).lines.length = p.lines.length + 1 := by
  simp [Poem.addLine]

/-- Master structural invariant of the generation loop: lines only grow (by
exactly the number of next-line calls recorded), the title is untouched,
the transcript only grows with next-line and judgment entries, and the
final line count never exceeds `max  (initial count) maxLines`. -/
theorem runLoop_shape (gen : Nat → String) (theme style userBio guidance : Option String)
    (maxLines : Nat) :
    ∀ (fuel : Nat) (poem : Poem) (log : List CallRec),
      ∃ t newlog,
        (runLoop gen theme style userBio guidance maxLines fuel poem log).1.lines
            = poem.lines ++ t ∧
        (runLoop gen theme style userBio guidance maxLines fuel poem log).1.title
            = poem.title ∧
        (runLoop gen theme style userBio guidance maxLines fuel poem log).2 = log ++ newlog ∧
        (newlog.map CallRec.kind).count ReqKind.nextLine = t.length ∧
        (∀ e ∈ newlog, e.kind = ReqKind.nextLine ∨ e.kind = ReqKind.judge) ∧
        (runLoop gen theme style userBio guidance maxLines fuel poem log).1.lines.length
            ≤ max poem.lines.length maxLines := by
  intro fuel
  induction fuel with
  | zero =>
    intro poem log
    refine ⟨[], [], by simp [runLoop], by simp [runLoop], by simp [runLoop], by simp,
      by simp, by simp [runLoop, le_max_left]⟩
  | succ fuel ih =>
    intro poem log
    by_cases h : poem.lines.length < maxLines
    · rw [runLoop_succ_lt gen theme style userBio guidance maxLines fuel poem log h]
      simp only []
      set resp := trimStr (gen log.length) with hresp
      set nlrec : CallRec :=
        ⟨.nextLine, nextLinePrompt poem theme style userBio guidance, poem.lines.length⟩
        with hnlrec
      split
      · -- completion check evaluated this iteration
        split
        · -- check said complete: exit with one appended line
          rcases checkIfComplete_log gen (poem.addLine resp) style guidance (log ++ [nlrec])
            with hcl | hcl
          · refine ⟨[resp], [nlrec], by simp [Poem.addLine], rfl, by simp [hcl], ?_, ?_, ?_⟩
            · rfl
            · intro e he
              simp only [List.mem_singleton] at he
              subst he
              exact Or.inl rfl
            · have : (poem.addLine resp).lines.length = poem.lines.length + 1 :=
                addLine_length poem resp
              simp only [this]
              omega
          · refine ⟨[resp], [nlrec,
              ⟨.judge, checkPrompt (poem.addLine resp) guidance,
                (poem.addLine resp).lines.length⟩],
              by simp [Poem.addLine], rfl, by simp [hcl], ?_, ?_, ?_⟩
            · rfl
            · intro e he
              simp only [List.mem_cons, List.mem_singleton] at he
              rcases he with he | he | he
              · subst he; exact Or.inl rfl
              · subst he; exact Or.inr rfl
              · cases he
            · have : (poem.addLine resp).lines.length = poem.lines.length + 1 :=
                addLine_length poem resp
              simp only [this]
              omega
        · -- check said not complete: loop continues
          rcases ih (poem.addLine resp)
              (checkIfComplete gen (poem.addLine resp) style guidance (log ++ [nlrec])).2
            with ⟨t', nl', hlines, htitle, hlog, hcount, hkinds, hbound⟩
          rcases checkIfComplete_log gen (poem.addLine resp) style guidance (log ++ [nlrec])
            with hcl | hcl
          · refine ⟨resp :: t', nlrec :: nl', ?_, ?_, ?_, ?_, ?_, ?_⟩
            · rw [hlines]; simp [Poem.addLine]
            · rw [htitle]; rfl
            · rw [hlog, hcl]; simp
            · simp only [List.map_cons, List.count_cons, hnlrec]
              simp [hcount, show (ReqKind.judge == ReqKind.nextLine) = false from rfl,
                show (ReqKind.nextLine == ReqKind.nextLine) = true from rfl]
            · intro e he
              rcases List.mem_cons.mp he with he | he
              · subst he; exact Or.inl rfl
              · exact hkinds e he
            · refine le_trans hbound ?_
              have : (poem.addLine resp).lines.length = poem.lines.length + 1 :=
                addLine_length poem resp
              rw [this]
              omega
          · refine ⟨resp :: t', nlrec ::
              ⟨.judge, checkPrompt (poem.addLine resp) guidance,
                (poem.addLine resp).lines.length⟩ :: nl', ?_, ?_, ?_, ?_, ?_, ?_⟩
            · rw [hlines]; simp [Poem.addLine]
            · rw [htitle]; rfl
            · rw [hlog, hcl]; simp
            · simp only [List.map_cons, List.count_cons, hnlrec]
              simp [hcount, show (ReqKind.judge == ReqKind.nextLine) = false from rfl,
                show (ReqKind.nextLine == ReqKind.nextLine) = true from rfl]
            · intro e he
              rcases List.mem_cons.mp he with he | he
              · subst he; exact Or.inl rfl
              · rcases List.mem_cons.mp he with he | he
                · subst he; exact Or.inr rfl
                · exact hkinds e he
            · refine le_trans hbound ?_
              have : (poem.addLine resp).lines.length = poem.lines.length + 1 :=
                addLine_length poem resp
              rw [this]
              omega
      · -- no completion check this iteration: loop continues
        rcases ih (poem.addLine resp) (log ++ [nlrec])
          with ⟨t', nl', hlines, htitle, hlog, hcount, hkinds, hbound⟩
        refine ⟨resp :: t', nlrec :: nl', ?_, ?_, ?_, ?_, ?_, ?_⟩
        · rw [hlines]; simp [Poem.addLine]
        · rw [htitle]; rfl
        · rw [hlog]; simp
        · simp only [List.map_cons, List.count_cons, hnlrec]
          simp [hcount, show (ReqKind.judge == ReqKind.nextLine) = false from rfl,
            show (ReqKind.nextLine == ReqKind.nextLine) = true from rfl]
        · intro e he
          rcases List.mem_cons.mp he with he | he
          · subst he; exact Or.inl rfl
          · exact hkinds e he
        · refine le_trans hbound ?_
          have : (poem.addLine resp).lines.length = poem.lines.length + 1 :=
            addLine_length poem resp
          rw [this]
          omega
    · rw [runLoop_stop gen theme style userBio guidance maxLines (fuel + 1) poem log h]
      exact ⟨[], [], by simp, rfl, by simp, by simp, by simp, le_max_left _ _⟩

/-! ### Decomposition of `runPoet` -/

/-- The resolved title: the supplied one when truthy, else the cleaned-up
response of the title generation call. -/
def initTitle (gen : Nat → String) (opts : RunOptions) : String :=
  if jsTruthy opts.title then opts.title.getD ""
  else stripQuotes (trimStr (gen 0))

/-- Transcript after title resolution. -/
def initLogT (gen : Nat → String) (opts : RunOptions) : List CallRec :=
  if jsTruthy opts.title then []
  else [⟨.title, titlePrompt opts.theme opts.userBio opts.guidance, 0⟩]

/-- The resolved first line: the supplied seed when truthy, else the
trimmed response of the seed generation call. -/
def initSeed (gen : Nat → String) (opts : RunOptions) : String :=
  if jsTruthy opts.seedLine then opts.seedLine.getD ""
  else trimStr (gen (initLogT gen opts).length)

/-- Transcript after title and seed resolution. -/
def initLog (gen : Nat → String) (opts : RunOptions) : List CallRec :=
  if jsTruthy opts.seedLine then initLogT gen opts
  else initLogT gen opts ++ [⟨.seed, seedPrompt opts.userBio opts.guidance, 0⟩]

theorem runPoet_eq (gen : Nat → String) (opts : RunOptions) :
    runPoet gen opts =
      ⟨(runLoop gen opts.theme opts.style opts.userBio opts.guidance
          (resolveMaxLines opts.style opts.guidance) (resolveMaxLines opts.style opts.guidance)
          ⟨initTitle gen opts, [initSeed gen opts]⟩ (initLog gen opts)).1,
        (runLoop gen opts.theme opts.style opts.userBio opts.guidance
          (resolveMaxLines opts.style opts.guidance) (resolveMaxLines opts.style opts.guidance)
          ⟨initTitle gen opts, [initSeed gen opts]⟩ (initLog gen opts)).2⟩ := by
  unfold runPoet initTitle initSeed initLog initLogT
  by_cases ht : jsTruthy opts.title <;> by_cases hs : jsTruthy opts.seedLine <;>
    simp [ht, hs]

theorem initLog_kinds (gen : Nat → String) (opts : RunOptions) :
    ∀ e ∈ initLog gen opts, e.kind = ReqKind.title ∨ e.kind = ReqKind.seed := by
  intro e he
  unfold initLog initLogT at he
  by_cases ht : jsTruthy opts.title <;> by_cases hs : jsTruthy opts.seedLine <;>
    simp [ht, hs] at he <;> first
      | (subst he; simp)
      | (rcases he with he | he <;> subst he <;> simp)

theorem initLog_count_nextLine (gen : Nat → String) (opts : RunOptions) :
    (List.map CallRec.kind (initLog gen opts)).count ReqKind.nextLine = 0 := by
  unfold initLog initLogT
  by_cases ht : jsTruthy opts.title <;> by_cases hs : jsTruthy opts.seedLine <;>
    simp [ht, hs] <;> rfl

theorem initLog_count_judge (gen : Nat → String) (opts : RunOptions) :
    (List.map CallRec.kind (initLog gen opts)).count ReqKind.judge = 0 := by
  unfold initLog initLogT
  by_cases ht : jsTruthy opts.title <;> by_cases hs : jsTruthy opts.seedLine <;>
    simp [ht, hs] <;> rfl

/-- C1: for every stream of generation responses and every option bundle,
the loop performs at most `resolvedTarget` line-append iterations (each one
logged as a next-line call), and the final poem never has more than the
resolved target number of lines. -/
theorem C1_termination (gen : Nat → String) (opts : RunOptions) :
    (runPoet gen opts).poem.lines.length ≤ resolveMaxLines opts.style opts.guidance ∧
    countKind (runPoet gen opts).log ReqKind.nextLine
      ≤ resolveMaxLines opts.style opts.guidance := by
  rcases runLoop_shape gen opts.theme opts.style opts.userBio opts.guidance
      (resolveMaxLines opts.style opts.guidance) (resolveMaxLines opts.style opts.guidance)
      ⟨initTitle gen opts, [initSeed gen opts]⟩ (initLog gen opts)
    with ⟨t, newlog, hlines, _, hlog, hcount, _, hbound⟩
  have hM := resolveMaxLines_pos opts.style opts.guidance
  rw [runPoet_eq gen opts]
  constructor
  · refine le_trans hbound ?_
    simp only [List.length_singleton]
    omega
  · unfold countKind
    rw [hlog, List.map_append, List.count_append, initLog_count_nextLine, hcount]
    have hlen : (runLoop gen opts.theme opts.style opts.userBio opts.guidance
        (resolveMaxLines opts.style opts.guidance) (resolveMaxLines opts.style opts.guidance)
        ⟨initTitle gen opts, [initSeed gen opts]⟩ (initLog gen opts)).1.lines.length
        = 1 + t.length := by
      rw [hlines]
      simp
      omega
    have := le_trans hbound (by simp only [List.length_singleton]; omega :
      max (Poem.lines ⟨initTitle gen opts, [initSeed gen opts]⟩).length
        (resolveMaxLines opts.style opts.guidance) ≤ resolveMaxLines opts.style opts.guidance)
    omega

/-- C7: the poem's line list starts non-empty and never shrinks: `addLine`
is pure appending, the loop only extends the line list it is given, and
every finished run returns at least the seed line (still in first
position). -/
theorem C7_lines_monotone :
    (∀ (p : Poem) (s : String), (p.addLine s).lines = p.lines ++ [s]) ∧
    (∀ (gen : Nat → String) (theme style userBio guidance : Option String)
        (maxLines fuel : Nat) (poem : Poem) (log : List CallRec),
      ∃ t, (runLoop gen theme style userBio guidance maxLines fuel poem log).1.lines
            = poem.lines ++ t) ∧
    (∀ (gen : Nat → String) (opts : RunOptions),
      1 ≤ (runPoet gen opts).poem.lines.length ∧
      (runPoet gen opts).poem.lines.head? = some (initSeed gen opts)) := by
  refine ⟨addLine_lines, ?_, ?_⟩
  · intro gen theme style userBio guidance maxLines fuel poem log
    rcases runLoop_shape gen theme style userBio guidance maxLines fuel poem log
      with ⟨t, _, hlines, _⟩
    exact ⟨t, hlines⟩
  · intro gen opts
    rcases runLoop_shape gen opts.theme opts.style opts.userBio opts.guidance
        (resolveMaxLines opts.style opts.guidance) (resolveMaxLines opts.style opts.guidance)
        ⟨initTitle gen opts, [initSeed gen opts]⟩ (initLog gen opts)
      with ⟨t, newlog, hlines, _⟩
    rw [runPoet_eq gen opts]
    constructor
    · simp only [hlines]
      simp
    · simp only [hlines]
      simp

/-! ### The guidance-target mode of the loop -/

/-- When guidance fixes a target `n` (and the style's fixed-count rule does
not fire at `n`), a loop started below the target appends lines silently
until the count reaches exactly `n`, then issues exactly one judgment call
(recorded at line count `n`) and stops — whatever the judgment answers. -/
theorem runLoop_guidance (gen : Nat → String) (theme style userBio guidance : Option String)
    (n : Nat) (hg : extractLineCount guidance = some n)
    (hs : styleFixedDone style n = false) :
    ∀ (fuel : Nat) (poem : Poem) (log : List CallRec),
      poem.lines.length < n → n ≤ poem.lines.length + fuel →
      (runLoop gen theme style userBio guidance n fuel poem log).1.lines.length = n ∧
      (runLoop gen theme style userBio guidance n fuel poem log).2.map CallRec.kind
        = log.map CallRec.kind
            ++ List.replicate (n - poem.lines.length) ReqKind.nextLine ++ [ReqKind.judge] ∧
      (∀ e ∈ (runLoop gen theme style userBio guidance n fuel poem log).2,
        e ∈ log ∨ e.kind = ReqKind.nextLine ∨
          (e.kind = ReqKind.judge ∧ e.linesAt = n)) := by
  intro fuel
  induction fuel with
  | zero =>
    intro poem log h1 h2
    omega
  | succ fuel ih =>
    intro poem log h1 h2
    rw [runLoop_succ_lt gen theme style userBio guidance n fuel poem log h1]
    simp only [hg]
    set resp := trimStr (gen log.length) with hresp
    set nlrec : CallRec :=
      ⟨.nextLine, nextLinePrompt poem theme style userBio guidance, poem.lines.length⟩
      with hnlrec
    by_cases hreach : n ≤ (poem.addLine resp).lines.length
    · have hlen : (poem.addLine resp).lines.length = n := by
        rw [addLine_length] at hreach ⊢
        omega
      have hbelow : belowGuidanceTarget (poem.addLine resp) guidance = false := by
        unfold belowGuidanceTarget
        rw [hg, hlen]
        simp
      have hfixed : styleFixedDone style (poem.addLine resp).lines.length = false := by
        rw [hlen]
        exact hs
      have hcheck : checkIfComplete gen (poem.addLine resp) style guidance (log ++ [nlrec])
          = (saysYes (gen (log ++ [nlrec]).length),
            (log ++ [nlrec])
              ++ [⟨.judge, checkPrompt (poem.addLine resp) guidance, n⟩]) := by
        unfold checkIfComplete
        rw [hbelow, hfixed]
        simp only [Bool.false_eq_true, if_false]
        rw [hlen]
      have hone : n - poem.lines.length = 1 := by
        rw [addLine_length] at hlen
        omega
      have hres : ∀ b : Bool,
          (if b then
            ((poem.addLine resp),
              (checkIfComplete gen (poem.addLine resp) style guidance (log ++ [nlrec])).2)
          else runLoop gen theme style userBio guidance n fuel (poem.addLine resp)
              (checkIfComplete gen (poem.addLine resp) style guidance (log ++ [nlrec])).2)
          = ((poem.addLine resp),
              (checkIfComplete gen (poem.addLine resp) style guidance (log ++ [nlrec])).2) := by
        intro b
        cases b
        · simp only [Bool.false_eq_true, if_false]
          exact runLoop_stop gen theme style userBio guidance n fuel _ _ (by rw [hlen]; omega)
        · simp
      simp only [hreach, decide_eq_true_eq, if_true, decide_True]
      rw [hres]
      rw [hcheck]
      refine ⟨hlen, ?_, ?_⟩
      · simp [hone, hnlrec, List.replicate_one]
      · intro e he
        simp only [List.append_assoc, List.mem_append, List.mem_singleton] at he
        rcases he with he | he | he
        · exact Or.inl he
        · subst he
          exact Or.inr (Or.inl rfl)
        · subst he
          exact Or.inr (Or.inr ⟨rfl, rfl⟩)
    · have hlt : (poem.addLine resp).lines.length < n := by omega
      have hd : decide (n ≤ (poem.addLine resp).lines.length) = false := by
        simp [hreach]
      simp only [hd, Bool.false_eq_true, if_false]
      rcases ih (poem.addLine resp) (log ++ [nlrec])
          hlt (by rw [addLine_length]; omega)
        with ⟨hlen', hkinds', hmem'⟩
      refine ⟨hlen', ?_, ?_⟩
      · rw [hkinds']
        have harr : n - poem.lines.length = (n - (poem.addLine resp).lines.length) + 1 := by
          rw [addLine_length]
          omega
        rw [harr, List.replicate_succ]
        simp [hnlrec]
      · intro e he
        rcases hmem' e he with h | h | h
        · rcases List.mem_append.mp h with h | h
          · exact Or.inl h
          · simp only [List.mem_singleton] at h
            subst h
            exact Or.inr (Or.inl rfl)
        · exact Or.inr (Or.inl h)
        · exact Or.inr (Or.inr h)

/-- C4: with guidance resolving to a 6-line target and no structured style,
every run ends with exactly 6 lines, makes exactly one completion-judgment
call, and that judgment call happens at line count 6 (never below). -/
theorem C4_guidance_six (gen : Nat → String) (opts : RunOptions)
    (hg : extractLineCount opts.guidance = some 6)
    (hs : styleKind opts.style = StyleKind.free ∨ styleKind opts.style = StyleKind.custom) :
    (runPoet gen opts).poem.lines.length = 6 ∧
    countKind (runPoet gen opts).log ReqKind.judge = 1 ∧
    (∀ e ∈ (runPoet gen opts).log, e.kind = ReqKind.judge → e.linesAt = 6) := by
  have hfd : styleFixedDone opts.style 6 = false := by
    unfold styleFixedDone
    rcases hs with h | h <;> rw [h]
  have hM : resolveMaxLines opts.style opts.guidance = 6 := by
    unfold resolveMaxLines
    rw [hg]
  rw [runPoet_eq gen opts, hM]
  rcases runLoop_guidance gen opts.theme opts.style opts.userBio opts.guidance 6 hg hfd 6
      ⟨initTitle gen opts, [initSeed gen opts]⟩ (initLog gen opts) (by simp) (by simp)
    with ⟨hlen, hkinds, hmem⟩
  refine ⟨hlen, ?_, ?_⟩
  · unfold countKind
    rw [hkinds, List.count_append, List.count_append, initLog_count_judge]
    show 0 + List.count ReqKind.judge (List.replicate (6 - 1) ReqKind.nextLine)
        + List.count ReqKind.judge [ReqKind.judge] = 1
    decide
  · intro e he hj
    rcases hmem e he with h | h | h
    · rcases initLog_kinds gen opts e h with h' | h' <;> rw [hj] at h' <;> cases h'
    · rw [hj] at h
      cases h
    · exact h.2

/-- Witness for C4: a concrete run with guidance "about the sea, 6 lines
long", no style, and a constant stub capability. -/
theorem C4_guidance_six_witness :
    (runPoet (fun _ => "ok")
        ⟨none, none, none, none, none, some "about the sea, 6 lines long"⟩).poem.lines.length
      = 6 ∧
    countKind (runPoet (fun _ => "ok")
        ⟨none, none, none, none, none, some "about the sea, 6 lines long"⟩).log
        ReqKind.judge = 1 :=
  ⟨(C4_guidance_six (fun _ => "ok")
      ⟨none, none, none, none, none, some "about the sea, 6 lines long"⟩
      (by decide) (Or.inl (by decide))).1,
    (C4_guidance_six (fun _ => "ok")
      ⟨none, none, none, none, none, some "about the sea, 6 lines long"⟩
      (by decide) (Or.inl (by decide))).2.1⟩

/-! ### The haiku mode of the loop -/

/-- With style Haiku and no guidance count, `maxLines` is 3 and a loop
started below 3 lines appends silently until the third line, whose
completion check is decided by the fixed-count rule without any judgment
call: the transcript grows by next-line entries only. -/
theorem runLoop_haiku (gen : Nat → String) (theme style userBio guidance : Option String)
    (hs : styleKind style = StyleKind.haiku) (hg : extractLineCount guidance = none) :
    ∀ (fuel : Nat) (poem : Poem) (log : List CallRec),
      poem.lines.length < 3 → 3 ≤ poem.lines.length + fuel →
      (runLoop gen theme style userBio guidance 3 fuel poem log).1.lines.length = 3 ∧
      (runLoop gen theme style userBio guidance 3 fuel poem log).2.map CallRec.kind
        = log.map CallRec.kind
            ++ List.replicate (3 - poem.lines.length) ReqKind.nextLine := by
  intro fuel
  induction fuel with
  | zero =>
    intro poem log h1 h2
    omega
  | succ fuel ih =>
    intro poem log h1 h2
    rw [runLoop_succ_lt gen theme style userBio guidance 3 fuel poem log h1]
    simp only [hg]
    set resp := trimStr (gen log.length) with hresp
    set nlrec : CallRec :=
      ⟨.nextLine, nextLinePrompt poem theme style userBio guidance, poem.lines.length⟩
      with hnlrec
    by_cases hreach : 3 ≤ (poem.addLine resp).lines.length
    · have hlen : (poem.addLine resp).lines.length = 3 := by
        rw [addLine_length] at hreach ⊢
        omega
      have hbelow : belowGuidanceTarget (poem.addLine resp) guidance = false := by
        unfold belowGuidanceTarget
        rw [hg]
      have hfixed : styleFixedDone style (poem.addLine resp).lines.length = true := by
        unfold styleFixedDone
        rw [hs, hlen]
        decide
      have hcheck : checkIfComplete gen (poem.addLine resp) style guidance (log ++ [nlrec])
          = (true, log ++ [nlrec]) := by
        unfold checkIfComplete
        rw [hbelow, hfixed]
        simp
      have hone : 3 - poem.lines.length = 1 := by
        rw [addLine_length] at hlen
        omega
      simp only [hlen, hcheck]
      norm_num
      refine ⟨hlen, ?_⟩
      simp [hone, hnlrec, List.replicate_one]
    · have hd1 : decide ((3 : Nat) ≤ (poem.addLine resp).lines.length) = false := by
        simp only [decide_eq_false_iff_not]
        omega
      simp only [hd1, Bool.or_self, Bool.false_eq_true, if_false]
      rcases ih (poem.addLine resp) (log ++ [nlrec])
          (by omega) (by rw [addLine_length]; omega)
        with ⟨hlen', hkinds'⟩
      refine ⟨hlen', ?_⟩
      rw [hkinds']
      have harr : 3 - poem.lines.length = (3 - (poem.addLine resp).lines.length) + 1 := by
        rw [addLine_length]
        omega
      rw [harr, List.replicate_succ]
      simp [hnlrec]

/-- C5: with style Haiku (any casing) and no guidance, every run — for any
stub capability — ends with exactly 3 lines and issues no
completion-judgment generation call (the fixed-count rule decides), and a
run with no supplied title or seed line makes exactly the four generation
calls title, seed, line 2, line 3. -/
theorem C5_haiku (gen : Nat → String) (opts : RunOptions)
    (hs : styleKind opts.style = StyleKind.haiku) (hg : opts.guidance = none) :
    (runPoet gen opts).poem.lines.length = 3 ∧
    countKind (runPoet gen opts).log ReqKind.judge = 0 ∧
    (jsTruthy opts.title = false → jsTruthy opts.seedLine = false →
      (runPoet gen opts).log.map CallRec.kind
        = [ReqKind.title, ReqKind.seed, ReqKind.nextLine, ReqKind.nextLine]) := by
  have hgn : extractLineCount opts.guidance = none := by
    rw [hg]
    rfl
  have hM : resolveMaxLines opts.style opts.guidance = 3 := by
    unfold resolveMaxLines
    rw [hgn, hs]
  rw [runPoet_eq gen opts, hM]
  rcases runLoop_haiku gen opts.theme opts.style opts.userBio opts.guidance hs hgn 3
      ⟨initTitle gen opts, [initSeed gen opts]⟩ (initLog gen opts) (by simp) (by simp)
    with ⟨hlen, hkinds⟩
  refine ⟨hlen, ?_, ?_⟩
  · unfold countKind
    rw [hkinds, List.count_append, initLog_count_judge]
    show 0 + List.count ReqKind.judge (List.replicate (3 - 1) ReqKind.nextLine) = 0
    decide
  · intro ht hse
    rw [hkinds]
    have hil : initLog gen opts
        = [⟨.title, titlePrompt opts.theme opts.userBio opts.guidance, 0⟩,
           ⟨.seed, seedPrompt opts.userBio opts.guidance, 0⟩] := by
      unfold initLog initLogT
      rw [ht, hse]
      simp
    rw [hil]
    rfl

/-- Witness for C5: the spec's end-to-end Haiku scenario with a constant
stub capability. -/
theorem C5_haiku_witness :
    (runPoet (fun _ => "stub")
        ⟨none, none, some "Seasons", some "Haiku", none, none⟩).poem.lines.length = 3 ∧
    (runPoet (fun _ => "stub")
        ⟨none, none, some "Seasons", some "Haiku", none, none⟩).log.map CallRec.kind
      = [ReqKind.title, ReqKind.seed, ReqKind.nextLine, ReqKind.nextLine] :=
  ⟨(C5_haiku (fun _ => "stub") ⟨none, none, some "Seasons", some "Haiku", none, none⟩
      (by decide) rfl).1,
    (C5_haiku (fun _ => "stub") ⟨none, none, some "Seasons", some "Haiku", none, none⟩
      (by decide) rfl).2.2 rfl rfl⟩

/-! ### C6: the positional directive table -/

/-- The positional-directive table, keyed by the number of lines the poem
currently holds (`L`) when the next-line prompt is composed — the key the
code actually branches on (`poem.lines.length`), so the directive is
carried by the generated line `L + 1`. -/
def directiveByCurrentLen : StyleKind → Nat → String
  | .haiku, L => if L = 1 then sevenSyl else if L = 2 then fiveSyl else ""
  | .limerick, L =>
    (if L ∈ [1, 2, 5] then limFirst
     else if L ∈ [3, 4] then limThird
     else "") ++ aabbaNote
  | .sonnet, L =>
    sonnetIntro ++
      (if L % 2 = 1 ∧ 1 ≤ L ∧ L ≤ 12 then quatrainFirst
       else if L % 2 = 0 ∧ 2 ≤ L ∧ L ≤ 12 then quatrainSecond
       else if L = 13 ∨ L = 14 then coupletNote
       else "")
  | _, _ => ""

theorem haikuAdd_eq (L : Nat) :
    haikuAdd L = directiveByCurrentLen StyleKind.haiku L := rfl

theorem limerickAdd_eq (L : Nat) :
    limerickAdd L = directiveByCurrentLen StyleKind.limerick L := by
  unfold limerickAdd directiveByCurrentLen
  congr 1
  split_ifs <;> simp_all

theorem sonnetAdd_eq (L : Nat) :
    sonnetAdd L = directiveByCurrentLen StyleKind.sonnet L := by
  unfold sonnetAdd directiveByCurrentLen
  congr 1
  split_ifs <;> first | rfl | omega

set_option maxRecDepth 100000 in
/-- C6 counterexample: composing the next-line prompt for a Limerick when
the poem holds 2 lines — i.e. for the 1-based line index 3, which the
claim's table sends to "rhymes with line 3" — appends the
rhymes-with-line-1 directive instead, and the prompt nowhere contains a
rhymes-with-the-third-line directive. -/
theorem C6_counterexample :
    nextLinePrompt ⟨"Night", ["a", "b"]⟩ none (some "Limerick") none none
      = nextLinePromptHead ⟨"Night", ["a", "b"]⟩ none none none
          ++ (styleIntro (some "Limerick") ++ (limFirst ++ aabbaNote))
          ++ nextLineTail
    ∧ strIncludes (nextLinePrompt ⟨"Night", ["a", "b"]⟩ none (some "Limerick") none none)
        "This line should rhyme with the third line" = false
    ∧ limFirst ≠ limThird := by
  refine ⟨rfl, by decide, by decide⟩

/-- C6 (amended): for every structured style the positional directive
appended to the next-line prompt follows the table keyed by the poem's
current line count `L` (the index of the last existing line) rather than
the index of the line being generated: Haiku L=1 → 7-syllable directive,
L=2 → concluding 5-syllable directive (so the generated lines 2 and 3
match the original claim); Limerick L∈{1,2,5} → "rhymes with line 1",
L∈{3,4} → "rhymes with line 3" (anapestic rhythm, AABBA note always
appended), carried by generated lines 2,3,6 and 4,5; Sonnet odd L ≤ 12 →
"rhymes with the first line of its quatrain", even L ≤ 12 → "… second
line …", L∈{13,14} → couplet with the previous line. -/
theorem C6_amended_directive_table (s : String) (L : Nat)
    (hs : styleKind (some s) = StyleKind.haiku ∨ styleKind (some s) = StyleKind.limerick
      ∨ styleKind (some s) = StyleKind.sonnet) :
    nextLineStyleBlock (some s) L
      = styleIntro (some s) ++ directiveByCurrentLen (styleKind (some s)) L := by
  rcases hs with h | h | h <;> unfold nextLineStyleBlock <;> rw [h]
  · rw [haikuAdd_eq]
  · rw [limerickAdd_eq]
  · rw [sonnetAdd_eq]

/-- Witness for the amended C6 at the sonnet couplet position. -/
theorem C6_amended_witness :
    nextLineStyleBlock (some "Sonnet") 13
      = styleIntro (some "Sonnet")
          ++ directiveByCurrentLen (styleKind (some "Sonnet")) 13 :=
  C6_amended_directive_table "Sonnet" 13 (Or.inr (Or.inr (by decide)))

/-! ### C8: unrecognized and "random" styles -/

/-- C8: a style name that is "random" or unrecognized (any casing) is not
an error and degrades to free-verse behavior: with no guidance count the
default 12-line ceiling applies, the fixed-count completion rule never
fires, and no positional directive is appended to the next-line prompt
(the style block is empty for falsy/"random" styles and is the bare
style-intro sentence for gated unrecognized names). -/
theorem C8_unrecognized_style (s : String) (guidance : Option String) (len : Nat)
    (h1 : lowerStr s ≠ "haiku") (h2 : lowerStr s ≠ "limerick")
    (h3 : lowerStr s ≠ "sonnet") :
    (extractLineCount guidance = none → resolveMaxLines (some s) guidance = 12) ∧
    styleFixedDone (some s) len = false ∧
    (nextLineStyleBlock (some s) len = ""
      ∨ nextLineStyleBlock (some s) len = styleIntro (some s)) := by
  have hk : styleKind (some s) = StyleKind.free ∨ styleKind (some s) = StyleKind.custom := by
    rw [styleKind_of_lower]
    by_cases ha : s.isEmpty ∨ lowerStr s = "random"
    · rw [if_pos ha]
      exact Or.inl rfl
    · rw [if_neg ha, if_neg h1, if_neg h2, if_neg h3]
      exact Or.inr rfl
  refine ⟨?_, ?_, ?_⟩
  · intro hg
    unfold resolveMaxLines
    rw [hg]
    rcases hk with h | h <;> rw [h]
  · unfold styleFixedDone
    rcases hk with h | h <;> rw [h]
  · unfold nextLineStyleBlock
    rcases hk with h | h <;> rw [h]
    · exact Or.inl rfl
    · exact Or.inr rfl

/-- Witness for C8 at the upper-case "RANDOM" style. -/
theorem C8_unrecognized_style_witness :
    resolveMaxLines (some "RANDOM") none = 12 ∧
    styleFixedDone (some "RANDOM") 3 = false :=
  ⟨(C8_unrecognized_style "RANDOM" none 3 (by decide) (by decide) (by decide)).1 rfl,
    (C8_unrecognized_style "RANDOM" none 3 (by decide) (by decide) (by decide)).2.1⟩

/-! ### C9: purity of prompt composition -/

/-- The agent's instance-held context (`this.userBio`, `this.guidance`),
set once at the start of `run`. -/
structure AgentCtx where
  userBio : Option String
  guidance : Option String
deriving DecidableEq

/-- `PoetAgent.generateNextLine`'s prompt construction as a state-passing
function over the agent context and the poem object: the method only reads
them (the source contains no assignment to either), so the embedded effect
returns both unchanged alongside the composed text. -/
def composeNextLine (ctx : AgentCtx) (poem : Poem) (theme style : Option String) :
    String × AgentCtx × Poem :=
  (nextLinePrompt poem theme style ctx.userBio ctx.guidance, ctx, poem)

/-- `PoetAgent.checkIfComplete`'s prompt construction, likewise (the
judgment prompt depends on the poem and the guidance field only). -/
def composeJudge (ctx : AgentCtx) (poem : Poem) : String × AgentCtx × Poem :=
  (checkPrompt poem ctx.guidance, ctx, poem)

/-- C9: prompt-directive composition is pure and deterministic: composing
mutates neither the agent context (request fields) nor the poem state, and
a second invocation on the state left by the first yields identical text
for both the next-line and the judgment prompt. -/
theorem C9_compose_pure (ctx : AgentCtx) (poem : Poem) (theme style : Option String) :
    (composeNextLine ctx poem theme style).2.1 = ctx ∧
    (composeNextLine ctx poem theme style).2.2 = poem ∧
    (composeNextLine (composeNextLine ctx poem theme style).2.1
        (composeNextLine ctx poem theme style).2.2 theme style).1
      = (composeNextLine ctx poem theme style).1 ∧
    (composeJudge ctx poem).2.1 = ctx ∧
    (composeJudge ctx poem).2.2 = poem ∧
    (composeJudge (composeJudge ctx poem).2.1 (composeJudge ctx poem).2.2).1
      = (composeJudge ctx poem).1 :=
  ⟨rfl, rfl, rfl, rfl, rfl, rfl⟩

/-! ### C10: empty title and seed line behave as absent -/

theorem initLog_count_title (gen : Nat → String) (opts : RunOptions) :
    (List.map CallRec.kind (initLog gen opts)).count ReqKind.title
      = if jsTruthy opts.title then 0 else 1 := by
  unfold initLog initLogT
  by_cases ht : jsTruthy opts.title <;> by_cases hs : jsTruthy opts.seedLine <;>
    simp [ht, hs] <;> rfl

theorem initLog_count_seed (gen : Nat → String) (opts : RunOptions) :
    (List.map CallRec.kind (initLog gen opts)).count ReqKind.seed
      = if jsTruthy opts.seedLine then 0 else 1 := by
  unfold initLog initLogT
  by_cases ht : jsTruthy opts.title <;> by_cases hs : jsTruthy opts.seedLine <;>
    simp [ht, hs] <;> rfl

theorem loopLog_count_zero (newlog : List CallRec)
    (hk : ∀ e ∈ newlog, e.kind = ReqKind.nextLine ∨ e.kind = ReqKind.judge)
    (k : ReqKind) (hkt : k = ReqKind.title ∨ k = ReqKind.seed) :
    (newlog.map CallRec.kind).count k = 0 := by
  induction newlog with
  | nil => rfl
  | cons e es ih =>
    rw [List.map_cons, List.count_cons]
    have hke : e.kind = ReqKind.nextLine ∨ e.kind = ReqKind.judge := hk e (by simp)
    have hne : (e.kind == k) = false := by
      rcases hke with h | h <;> rcases hkt with h' | h' <;> rw [h, h'] <;> rfl
    simp [hne, ih (fun e' he' => hk e' (by simp [he']))]

/-- C10: an empty-string title or seed line is treated exactly like an
absent field: whenever the field is JS-falsy (absent or ""), the run
issues the corresponding generation call and uses its cleaned-up result;
a truthy (non-empty) field suppresses the call and is used verbatim. -/
theorem C10_empty_is_absent (gen : Nat → String) (opts : RunOptions) :
    (jsTruthy opts.title = false →
      countKind (runPoet gen opts).log ReqKind.title = 1 ∧
      (runPoet gen opts).poem.title = stripQuotes (trimStr (gen 0))) ∧
    (jsTruthy opts.title = true →
      countKind (runPoet gen opts).log ReqKind.title = 0 ∧
      (runPoet gen opts).poem.title = opts.title.getD "") ∧
    (jsTruthy opts.seedLine = false →
      countKind (runPoet gen opts).log ReqKind.seed = 1 ∧
      (runPoet gen opts).poem.lines.head?
        = some (trimStr (gen (if jsTruthy opts.title then 0 else 1)))) ∧
    (jsTruthy opts.seedLine = true →
      countKind (runPoet gen opts).log ReqKind.seed = 0 ∧
      (runPoet gen opts).poem.lines.head? = some (opts.seedLine.getD "")) := by
  rcases runLoop_shape gen opts.theme opts.style opts.userBio opts.guidance
      (resolveMaxLines opts.style opts.guidance) (resolveMaxLines opts.style opts.guidance)
      ⟨initTitle gen opts, [initSeed gen opts]⟩ (initLog gen opts)
    with ⟨t, newlog, hlines, htitle, hlog, _, hkinds, _⟩
  have hnt := loopLog_count_zero newlog hkinds ReqKind.title (Or.inl rfl)
  have hns := loopLog_count_zero newlog hkinds ReqKind.seed (Or.inr rfl)
  have hlogT : (initLogT gen opts).length = if jsTruthy opts.title then 0 else 1 := by
    unfold initLogT
    by_cases ht : jsTruthy opts.title <;> simp [ht]
  rw [runPoet_eq gen opts]
  refine ⟨?_, ?_, ?_, ?_⟩
  · intro ht
    constructor
    · unfold countKind
      rw [hlog, List.map_append, List.count_append, hnt, initLog_count_title, ht]
      rfl
    · rw [htitle]
      unfold initTitle
      rw [ht]
      rfl
  · intro ht
    constructor
    · unfold countKind
      rw [hlog, List.map_append, List.count_append, hnt, initLog_count_title, ht]
      rfl
    · rw [htitle]
      unfold initTitle
      rw [ht]
      rfl
  · intro hs
    constructor
    · unfold countKind
      rw [hlog, List.map_append, List.count_append, hns, initLog_count_seed, hs]
      rfl
    · rw [hlines]
      simp only [List.singleton_append, List.head?_cons, Option.some.injEq]
      unfold initSeed
      rw [hs, hlogT]
      rfl
  · intro hs
    constructor
    · unfold countKind
      rw [hlog, List.map_append, List.count_append, hns, initLog_count_seed, hs]
      rfl
    · rw [hlines]
      simp only [List.singleton_append, List.head?_cons, Option.some.injEq]
      unfold initSeed
      rw [hs]
      rfl

/-- Witness for C10: an empty title and a supplied seed line with a
constant stub capability. -/
theorem C10_empty_is_absent_witness :
    countKind (runPoet (fun _ => "A Title")
        ⟨some "", some "dawn breaks", none, some "Haiku", none, none⟩).log
        ReqKind.title = 1 ∧
    (runPoet (fun _ => "A Title")
        ⟨some "", some "dawn breaks", none, some "Haiku", none, none⟩).poem.title
      = stripQuotes (trimStr "A Title") ∧
    countKind (runPoet (fun _ => "A Title")
        ⟨some "", some "dawn breaks", none, some "Haiku", none, none⟩).log
        ReqKind.seed = 0 :=
  ⟨((C10_empty_is_absent (fun _ => "A Title")
      ⟨some "", some "dawn breaks", none, some "Haiku", none, none⟩).1 rfl).1,
    ((C10_empty_is_absent (fun _ => "A Title")
      ⟨some "", some "dawn breaks", none, some "Haiku", none, none⟩).1 rfl).2,
    ((C10_empty_is_absent (fun _ => "A Title")
      ⟨some "", some "dawn breaks", none, some "Haiku", none, none⟩).2.2.2 rfl).1⟩

end Poet
